import Mathlib

/-!
Shallow embedding of the `pyqt_examples` repository (PyQt/PySide2 tutorial
snippets) and proofs about the claims of its specification.

The repository's modules embedded here:
* `qsettings/advanced.py` — `SettingsModelProxy` (deferred-commit editor over a
  settings object), `SettingsModel.editor`;
* `qmodelview/common.py` — status tables, `ItemStatus`, `print_item_status`,
  `StatusWindow.showEvent`;
* `qmodelview/model_view.py` — `StatusModel.__getitem__`, `StatusView`
  selection handling, `_create_child_items`;
* `qmodelview/item_widget.py` — `StatusWidget` selection handling,
  `_item_status`, `_create_child_item`;
* `qmodelview/model_view2.py` — `RootLeafWidget._set_root_index`;
* `qmodelproxy/sort_filter_proxy.py` — `ProxyModel.filterAcceptsRow`,
  `MainWindow.showEvent`;
* `qdialog/dialog.py` — `PromptDialog` OK-button enabling.

Python objects are modelled as association lists from attribute names to
values, Python dicts as insertion-ordered association lists, and Python
exceptions as an explicit error type returned through `Except`.
-/

/-- The Python runtime values the examples move around: `None`, booleans,
integers, strings, and Qt color constants. -/
inductive PyValue where
  | none
  | bool (b : Bool)
  | int (n : Int)
  | str (s : String)
  | color (c : String)
  deriving DecidableEq, Repr

/-- The Python exceptions that the embedded code can raise. -/
inductive PyErr where
  | assertionError
  | attributeError
  | indexError
  | keyError
  | valueError
  deriving DecidableEq, Repr

/-- Lookup in a Python dict / object attribute table: the value of the first
entry with the given key (keys of a Python dict are unique, so the direction
of the scan is immaterial on reachable states). -/
def dictLookup {α : Type} : List (String × α) → String → Option α
  | [], _ => Option.none
  | (a, v) :: rest, k => if a = k then some v else dictLookup rest k

/-- Update of a Python dict (`d[k] = v`, insertion ordered): replace the value
of an existing key in place, otherwise append the new binding at the end. -/
def dictSet {α : Type} : List (String × α) → String → α → List (String × α)
  | [], k, v => [(k, v)]
  | (a, w) :: rest, k, v =>
      if a = k then (a, v) :: rest else (a, w) :: dictSet rest k v

/-- The last value a key was given in a list of (key, value) assignments,
if any: specification vocabulary for "the last value set for that key". -/
def lastWrite {α : Type} : List (String × α) → String → Option α
  | [], _ => Option.none
  | (a, v) :: rest, k =>
      (lastWrite rest k).orElse (fun _ => if a = k then some v else Option.none)

/-- A generic Python settings object (the `QSettings`-like object the proxy
wraps): its data attributes, name to value. -/
structure PySettings where
  attrs : List (String × PyValue)
  deriving DecidableEq, Repr

/-- Python `getattr(obj, name)` without a default: `none` means the lookup
raises `AttributeError`. -/
def pyGetattr (s : PySettings) (a : String) : Option PyValue :=
  dictLookup s.attrs a

/-- Python `hasattr(obj, name)`. -/
def pyHasattr (s : PySettings) (a : String) : Bool :=
  (pyGetattr s a).isSome

/-- Python `setattr(obj, name, value)`. -/
def pySetattr (s : PySettings) (a : String) (v : PyValue) : PySettings :=
  ⟨dictSet s.attrs a v⟩

/-- State of a `SettingsModelProxy` instance from `qsettings/advanced.py`:
the wrapped settings object `_settings` and the deferred-commit dict
`_edits`. -/
structure SettingsModelProxy where
  settings : PySettings
  edits : List (String × PyValue)
  deriving DecidableEq, Repr

namespace SettingsModelProxy

/-- Constructor `SettingsModelProxy.__init__`: stores the settings object and
starts with an empty `_edits` dict. -/
def mk0 (s : PySettings) : SettingsModelProxy :=
  ⟨s, []⟩

/-- The guard of `SettingsModelProxy.editor`:
`assert hasattr(self._settings, attr)`. The `Except` value is the outcome of
calling `editor`; on success the two returned partials are characterised by
`editorGet` and `editorSet` below. -/
def editor (p : SettingsModelProxy) (attr : String) : Except PyErr Unit :=
  if pyHasattr p.settings attr then Except.ok () else Except.error PyErr.assertionError

/-- Calling the `get` member of the pair returned by
`SettingsModelProxy.editor`: `functools.partial(getattr, self._settings, attr)`,
a plain attribute read of the underlying settings object. -/
def editorGet (p : SettingsModelProxy) (attr : String) : Option PyValue :=
  pyGetattr p.settings attr

/-- Calling the `set` member of the pair returned by
`SettingsModelProxy.editor` with a value:
`functools.partial(self._edits.__setitem__, attr)`, a store into the `_edits`
dict. -/
def editorSet (p : SettingsModelProxy) (attr : String) (v : PyValue) : SettingsModelProxy :=
  { p with edits := dictSet p.edits attr v }

/-- Method `SettingsModelProxy.setValue`: `setattr(self._settings, key, value)`. -/
def setValue (p : SettingsModelProxy) (key : String) (v : PyValue) : SettingsModelProxy :=
  { p with settings := pySetattr p.settings key v }

/-- Method `SettingsModelProxy.sync`: write every `_edits` entry through with
`setValue`, in dict order, then flush the settings object
(`self._settings.sync()`, a persistence flush with no effect on the attribute
values modelled here). -/
def sync (p : SettingsModelProxy) : SettingsModelProxy :=
  p.edits.foldl (fun q kv => q.setValue kv.1 kv.2) p

/-- Method `SettingsModelProxy.value`: the body evaluates
`getattr(self._settings, key, defaultValue)` but has no `return` statement, so
the call returns `None`. The evaluated-and-discarded lookup is kept as a dead
binding, exactly as in the source. -/
def value (p : SettingsModelProxy) (key : String) (defaultValue : PyValue := PyValue.none) :
    PyValue :=
  let _discarded := (pyGetattr p.settings key).getD defaultValue
  PyValue.none

/-- A sequence of calls to the `set` members of editor pairs of the proxy:
`ops` lists, in order, the attribute each call's editor was built for and the
value passed to the call. -/
def applyEdits (p : SettingsModelProxy) (ops : List (String × PyValue)) : SettingsModelProxy :=
  ops.foldl (fun q av => q.editorSet av.1 av.2) p

end SettingsModelProxy

/-- Attribute names that instances of class `SettingsModel`
(`qsettings/advanced.py`) expose for settings editing: the two `Setting`
descriptors declared on the class. Nothing in the class ever assigns a
`_settings` attribute (only `SettingsModelProxy.__init__` does, on the proxy). -/
def SettingsModel.attrNames : List String := ["color", "toggle"]

/-- Python `hasattr` on a `SettingsModel` instance, restricted to the settings
attributes relevant to the example. -/
def SettingsModel.hasattr (a : String) : Bool :=
  SettingsModel.attrNames.contains a

/-- The value of `self._settings` on a `SettingsModel` instance: the class
never assigns that attribute, so the lookup finds nothing and raises
`AttributeError`. -/
def SettingsModel.underscoreSettings : Option PySettings := Option.none

/-- Method `SettingsModel.editor` (`qsettings/advanced.py`, lines 141-157):
its assert reads `self._settings` before anything else, so the attribute
lookup outcome decides the call. `ok` means the method returns its
`SettingsEditor` pair. -/
def SettingsModel.editor (attr : String) : Except PyErr Unit :=
  match SettingsModel.underscoreSettings with
  | Option.none => Except.error PyErr.attributeError
  | Option.some st =>
      if pyHasattr st attr then Except.ok () else Except.error PyErr.assertionError

/-!
qmodelview/common.py — the status tables, the `ItemStatus` record, the printed
form, and the one-shot deferred refresh of `StatusWindow`.
-/

/-- Table `STATUS_NAMES` of `qmodelview/common.py`: status code to display
name. -/
def STATUS_NAMES : List (String × String) :=
  [("rdy", "Ready to Start"), ("omt", "Omitted"), ("wip", "In Progress"), ("fin", "Final")]

/-- Table `STATUS_COLORS` of `qmodelview/common.py`: status code to Qt display
color. -/
def STATUS_COLORS : List (String × String) :=
  [("rdy", "white"), ("omt", "darkGray"), ("wip", "yellow"), ("fin", "green")]

/-- The namedtuple `ItemStatus = collections.namedtuple('ItemStatus',
'parent child status')`: the fields in declaration order. -/
structure ItemStatus where
  parent : String
  child : String
  status : String
  deriving DecidableEq, Repr

/-- Function `print_item_status`: the line printed for a status record,
format string `parent:child (status)` over the record's fields. -/
def print_item_status (s : ItemStatus) : String :=
  s.parent ++ ":" ++ s.child ++ " (" ++ s.status ++ ")"

/-- A second-level row of the status tree: display name and status code, as
stored by the demos' child-item constructors. -/
structure ChildRow where
  name : String
  status : String
  deriving DecidableEq, Repr

/-- A top-level item of the status tree: display name and its child rows. -/
structure TopItem where
  name : String
  children : List ChildRow
  deriving DecidableEq, Repr

/-- The whole status tree held by a demo's model or tree widget. -/
abbrev StatusTree := List TopItem

/-- State of a `StatusWindow` (`qmodelview/common.py`): the `_opened` flag and
a count of how many times `_handle_window_opened` (the deferred
`refresh` callback) has run. -/
structure StatusWindowState where
  opened : Bool
  refreshes : Nat
  deriving DecidableEq, Repr

namespace StatusWindow

/-- `StatusWindow.__init__` ends with `self._opened = False`; no refresh has
run yet. -/
def init : StatusWindowState := ⟨false, 0⟩

/-- Method `StatusWindow.showEvent`: when `_opened` is still false, set it and
run `_handle_window_opened` (which calls `self._status_widget.refresh()`);
afterwards delegate to the superclass handler, which does not touch this
state. -/
def showEvent (st : StatusWindowState) : StatusWindowState :=
  if st.opened then st else ⟨true, st.refreshes + 1⟩

end StatusWindow

/-- State of the `MainWindow` of `qmodelproxy/sort_filter_proxy.py`: the
`_opened` flag and a count of how many one-shot `QTimer.singleShot(10,
self.refresh)` callbacks have been scheduled. -/
structure MainWindowState where
  opened : Bool
  scheduledRefreshes : Nat
  deriving DecidableEq, Repr

namespace MainWindow

/-- `MainWindow.__init__` ends with `self._opened = False`. -/
def init : MainWindowState := ⟨false, 0⟩

/-- Method `MainWindow.showEvent`: delegate to the superclass handler, then,
when `_opened` is still false, set it and schedule the one-shot deferred
`refresh`. -/
def showEvent (st : MainWindowState) : MainWindowState :=
  if st.opened then st else ⟨true, st.scheduledRefreshes + 1⟩

end MainWindow

/-!
qmodelview/model_view.py — the `QStandardItemModel`-based demo.
A model index of the two-level tree is invalid, a top-level row, or a child
row addressed by its top-level row number and its own row number.
-/

/-- A `QModelIndex` into the two-level status tree of the model/view demo. -/
inductive MIdx where
  | invalid
  | top (t : Nat)
  | child (t : Nat) (c : Nat)
  deriving DecidableEq, Repr

namespace StatusModel

/-- Method `StatusModel.__getitem__` of `qmodelview/model_view.py`:
raise `IndexError` (here `none`) when the index is invalid or has no valid
parent (a top-level row); otherwise build `ItemStatus` from, in source
order, the text of column 0 of the index's own row, the text of the index's
parent, and the data of column 1 of the index's own row. Out-of-range row
numbers address no item and also yield `none`. -/
def getitem (tree : StatusTree) : MIdx → Option ItemStatus
  | MIdx.invalid => Option.none
  | MIdx.top _ => Option.none
  | MIdx.child t c =>
      (tree.get? t).bind fun topIt =>
        (topIt.children.get? c).map fun ch =>
          ⟨ch.name, topIt.name, ch.status⟩

/-- The two model items appended for one child row by
`StatusModel._create_child_items`: the name item's text, the status item's
text (`STATUS_NAMES.get(status)`, `None` allowed), the status item's data,
and the background color of both. -/
structure ChildRowItems where
  childText : String
  statusText : Option String
  statusData : String
  background : String
  deriving DecidableEq, Repr

/-- Method `StatusModel._create_child_items`: `STATUS_NAMES.get(status)` never
raises; `STATUS_COLORS[status]` raises `KeyError` when the code is unknown. -/
def create_child_items (name status : String) : Except PyErr ChildRowItems :=
  let statusName := dictLookup STATUS_NAMES status
  match dictLookup STATUS_COLORS status with
  | Option.none => Except.error PyErr.keyError
  | Option.some colr => Except.ok ⟨name, statusName, status, colr⟩

end StatusModel

namespace StatusView

/-- Property `StatusView.selected_index`:
`(self.selectedIndexes() or [QtCore.QModelIndex()])[0]` — the first selected
index, or the invalid index when nothing is selected. -/
def selected_index (selectedIndexes : List MIdx) : MIdx :=
  match selectedIndexes with
  | [] => MIdx.invalid
  | i :: _ => i

/-- Method `StatusView.selectionChanged`: look the selected index up in the
model; on `IndexError` print nothing, otherwise print the status record.
The result is the line printed, if any. -/
def selectionChanged (tree : StatusTree) (selectedIndexes : List MIdx) : Option String :=
  match StatusModel.getitem tree (selected_index selectedIndexes) with
  | Option.none => Option.none
  | Option.some st => Option.some (print_item_status st)

end StatusView

/-!
qmodelview/item_widget.py — the `QTreeWidget`-based demo.
-/

/-- A selected child `QTreeWidgetItem` of the item/widget demo, carrying what
`_create_child_item` stored on it and on its parent: the parent's column-0
text, its own column-0 text, and its column-1 `UserRole` data (the status
code). -/
structure TreeWidgetChildItem where
  parentName : String
  name : String
  status : String
  deriving DecidableEq, Repr

namespace StatusWidget

/-- The data placed on one child item by `StatusWidget._create_child_item`:
background color of both columns, column-0 text, column-1 text
(`STATUS_NAMES.get(status)`, `None` allowed) and column-1 `UserRole` data.
`STATUS_COLORS[status]` raises `KeyError` when the code is unknown. -/
structure ChildItemData where
  background : String
  nameText : String
  statusText : Option String
  statusData : String
  deriving DecidableEq, Repr

/-- Method `StatusWidget._create_child_item`. -/
def create_child_item (name status : String) : Except PyErr ChildItemData :=
  match dictLookup STATUS_COLORS status with
  | Option.none => Except.error PyErr.keyError
  | Option.some colr =>
      Except.ok ⟨colr, name, dictLookup STATUS_NAMES status, status⟩

/-- The child item that `refresh` builds at top-level row `t`, child row `c`
of a status tree: `_create_top_item` gives the parent its name as column-0
text and `_create_child_item` fills the child (see `create_child_item`). -/
def childItemAt (tree : StatusTree) (t c : Nat) : Option TreeWidgetChildItem :=
  (tree.get? t).bind fun topIt =>
    (topIt.children.get? c).map fun ch =>
      ⟨topIt.name, ch.name, ch.status⟩

/-- Python single-element unpacking `item, = xs`: exactly one element is
required, anything else raises `ValueError`. -/
def unpackSingle {α : Type} : List α → Except PyErr α
  | [x] => Except.ok x
  | _ => Except.error PyErr.valueError

/-- The selection read of `StatusWidget._handle_item_selection_handled`:
`item, = self.selectedItems() or [None]` — when nothing is selected the
sentinel `None` is unpacked instead. -/
def selectedItem (selectedItems : List TreeWidgetChildItem) :
    Except PyErr (Option TreeWidgetChildItem) :=
  unpackSingle (if selectedItems.isEmpty then [Option.none] else selectedItems.map Option.some)

/-- Method `StatusWidget._item_status`: build the `ItemStatus` record from,
in source order, the parent's column-0 text, the item's own column-0 text,
and the item's column-1 `UserRole` data. -/
def item_status (item : TreeWidgetChildItem) : ItemStatus :=
  ⟨item.parentName, item.name, item.status⟩

/-- Method `StatusWidget._handle_item_selection_handled`: read the selection;
on the `None` sentinel return without printing, otherwise print the status
record of the selected item. The result is the line printed, if any. -/
def handle_item_selection (selectedItems : List TreeWidgetChildItem) :
    Except PyErr (Option String) :=
  (selectedItem selectedItems).map fun it =>
    match it with
    | Option.none => Option.none
    | Option.some item => Option.some (print_item_status (item_status item))

end StatusWidget

/-!
qmodelview/model_view2.py — `RootLeafWidget._set_root_index`.
-/

namespace RootLeafWidget

/-- The row passed to `combobox.setCurrentIndex` by
`RootLeafWidget._set_root_index` when `restore_selection` is true:
`row = max(0, row * (row < combobox.count()))` over the combo box's previous
`currentIndex()` (−1 when nothing was selected) and its item count under the
new root index. Python's `True`/`False` multiply as 1/0. -/
def set_root_index_row (row : Int) (count : Int) : Int :=
  max 0 (row * (if row < count then 1 else 0))

end RootLeafWidget

/-!
qmodelproxy/sort_filter_proxy.py — `ProxyModel.filterAcceptsRow`.
-/

namespace ProxyModel

/-- A source-model row as `filterAcceptsRow` sees it: the `ColorItem` at
column 0 of that row, exposing its `color` data. -/
structure SourceRow where
  color : String
  deriving DecidableEq, Repr

/-- Method `ProxyModel.filterAcceptsRow`: when `self.filter_value` is not
`None`, the row's item must have that color; when that test passes (or no
color filter is set), the verdict is the base class's string-filter
predicate, here passed in as `superAccepts` since the toolkit owns it. -/
def filterAcceptsRow (filter_value : Option String) (item : SourceRow)
    (superAccepts : Bool) : Bool :=
  let result := match filter_value with
    | Option.none => true
    | Option.some v => v = item.color
  if result then superAccepts else result

end ProxyModel

/-!
qdialog/dialog.py — the OK-button enabling of `PromptDialog`.
-/

namespace PromptDialog

/-- State of a `PromptDialog`: the text field's contents and whether the OK
button is enabled. -/
structure State where
  text : String
  okEnabled : Bool
  deriving DecidableEq, Repr

/-- After `__init__`/`_setup`: the text field is empty and
`self._buttons.button(Ok).setEnabled(False)` has run. -/
def setup : State := ⟨"", false⟩

/-- One text-change event: the field now holds `t` and `textChanged` fires
`_handle_text_changed`, which runs `setEnabled(bool(text))` — enabled exactly
when the text is non-empty. -/
def textChangedEvent (_st : State) (t : String) : State :=
  ⟨t, !t.isEmpty⟩

/-- The dialog state after a sequence of text-change events. -/
def runTextEvents (ts : List String) : State :=
  ts.foldl textChangedEvent setup

end PromptDialog

/-!
Helper lemmas about the dict model.
-/

theorem dictLookup_dictSet {α : Type} (d : List (String × α)) (a k : String) (v : α) :
    dictLookup (dictSet d a v) k = if a = k then some v else dictLookup d k := by
  induction d with
  | nil => simp [dictSet, dictLookup]
  | cons hd tl ih =>
      obtain ⟨b, w⟩ := hd
      by_cases hba : b = a
      · subst hba
        simp [dictSet, dictLookup]
        by_cases hk : b = k <;> simp [hk]
      · simp [dictSet, hba, dictLookup]
        by_cases hk : b = k
        · subst hk
          have : ¬ a = b := fun h => hba h.symm
          simp [dictLookup, this]
        · simp [dictLookup, hk, ih]

theorem orElse_none_right {α : Type} (x : Option α) :
    (x.orElse fun _ => Option.none) = x := by
  cases x <;> rfl

theorem orElse_assoc {α : Type} (x y z : Option α) :
    ((x.orElse fun _ => y).orElse fun _ => z)
      = x.orElse fun _ => (y.orElse fun _ => z) := by
  cases x <;> rfl

/-- Keys of a dict. -/
def dictKeys {α : Type} (d : List (String × α)) : List String :=
  d.map Prod.fst

theorem dictKeys_cons {α : Type} (a : String) (v : α) (tl : List (String × α)) :
    dictKeys ((a, v) :: tl) = a :: dictKeys tl := rfl

theorem dictLookup_eq_none_of_not_mem {α : Type} (d : List (String × α)) (k : String)
    (h : k ∉ dictKeys d) : dictLookup d k = Option.none := by
  induction d with
  | nil => rfl
  | cons hd tl ih =>
      obtain ⟨b, w⟩ := hd
      rw [dictKeys_cons, List.mem_cons] at h
      push_neg at h
      have hbk : ¬ b = k := fun hh => h.1 hh.symm
      simp [dictLookup, hbk, ih h.2]

theorem lastWrite_eq_none_of_not_mem {α : Type} (d : List (String × α)) (k : String)
    (h : k ∉ dictKeys d) : lastWrite d k = Option.none := by
  induction d with
  | nil => rfl
  | cons hd tl ih =>
      obtain ⟨b, w⟩ := hd
      rw [dictKeys_cons, List.mem_cons] at h
      push_neg at h
      have hbk : ¬ b = k := fun hh => h.1 hh.symm
      simp [lastWrite, hbk, ih h.2, Option.orElse]

theorem mem_dictKeys_dictSet {α : Type} (d : List (String × α)) (a k : String) (v : α) :
    k ∈ dictKeys (dictSet d a v) ↔ k ∈ dictKeys d ∨ k = a := by
  induction d with
  | nil => simp [dictSet, dictKeys]
  | cons hd tl ih =>
      obtain ⟨b, w⟩ := hd
      by_cases hba : b = a
      · subst hba
        rw [show dictSet ((b, w) :: tl) b v = (b, v) :: tl from by simp [dictSet]]
        simp only [dictKeys_cons, List.mem_cons]
        tauto
      · rw [show dictSet ((b, w) :: tl) a v = (b, w) :: dictSet tl a v from by
          simp [dictSet, hba]]
        simp only [dictKeys_cons, List.mem_cons, ih]
        tauto

theorem dictKeys_nodup_dictSet {α : Type} (d : List (String × α)) (a : String) (v : α)
    (h : (dictKeys d).Nodup) : (dictKeys (dictSet d a v)).Nodup := by
  induction d with
  | nil => simp [dictSet, dictKeys]
  | cons hd tl ih =>
      obtain ⟨b, w⟩ := hd
      rw [dictKeys_cons, List.nodup_cons] at h
      by_cases hba : b = a
      · subst hba
        rw [show dictSet ((b, w) :: tl) b v = (b, v) :: tl from by simp [dictSet]]
        rw [dictKeys_cons, List.nodup_cons]
        exact h
      · rw [show dictSet ((b, w) :: tl) a v = (b, w) :: dictSet tl a v from by
          simp [dictSet, hba]]
        rw [dictKeys_cons, List.nodup_cons]
        refine ⟨fun hm => ?_, ih h.2⟩
        rcases (mem_dictKeys_dictSet tl a b v).mp hm with hin | hba2
        · exact h.1 hin
        · exact hba hba2

theorem lastWrite_eq_dictLookup_of_nodup {α : Type} (d : List (String × α)) (k : String)
    (h : (dictKeys d).Nodup) : lastWrite d k = dictLookup d k := by
  induction d with
  | nil => rfl
  | cons hd tl ih =>
      obtain ⟨b, w⟩ := hd
      rw [dictKeys_cons, List.nodup_cons] at h
      by_cases hbk : b = k
      · subst hbk
        simp [lastWrite, dictLookup, lastWrite_eq_none_of_not_mem tl b h.1, Option.orElse]
      · simp [lastWrite, dictLookup, hbk, ih h.2, orElse_none_right]

/-!
Helper lemmas about the settings proxy.
-/

namespace SettingsModelProxy

theorem applyEdits_settings (p : SettingsModelProxy) (ops : List (String × PyValue)) :
    (applyEdits p ops).settings = p.settings := by
  induction ops generalizing p with
  | nil => rfl
  | cons hd tl ih => simpa [applyEdits, List.foldl_cons, editorSet] using ih (p.editorSet hd.1 hd.2)

theorem applyEdits_edits_lookup (p : SettingsModelProxy) (ops : List (String × PyValue))
    (k : String) :
    dictLookup (applyEdits p ops).edits k
      = (lastWrite ops k).orElse fun _ => dictLookup p.edits k := by
  induction ops generalizing p with
  | nil => rfl
  | cons hd tl ih =>
      obtain ⟨a, v⟩ := hd
      have step : applyEdits p ((a, v) :: tl) = applyEdits (p.editorSet a v) tl := by
        simp [applyEdits, List.foldl_cons]
      rw [step, ih]
      simp only [lastWrite, editorSet, dictLookup_dictSet]
      cases hlw : lastWrite tl k with
      | none => by_cases hak : a = k <;> simp [Option.orElse, hak]
      | some w => simp [Option.orElse]

theorem applyEdits_edits_nodup (s : PySettings) (ops : List (String × PyValue)) :
    (dictKeys (applyEdits (mk0 s) ops).edits).Nodup := by
  suffices h : ∀ (p : SettingsModelProxy), (dictKeys p.edits).Nodup →
      (dictKeys (applyEdits p ops).edits).Nodup by
    exact h (mk0 s) (by simp [mk0, dictKeys])
  induction ops with
  | nil => intro p hp; exact hp
  | cons hd tl ih =>
      intro p hp
      have step : applyEdits p (hd :: tl) = applyEdits (p.editorSet hd.1 hd.2) tl := by
        simp [applyEdits, List.foldl_cons]
      rw [step]
      exact ih _ (dictKeys_nodup_dictSet _ _ _ hp)

theorem sync_settings (p : SettingsModelProxy) :
    (sync p).settings
      = p.edits.foldl (fun s kv => pySetattr s kv.1 kv.2) p.settings := by
  unfold sync
  suffices h : ∀ (l : List (String × PyValue)) (q : SettingsModelProxy),
      (l.foldl (fun r kv => r.setValue kv.1 kv.2) q).settings
        = l.foldl (fun s kv => pySetattr s kv.1 kv.2) q.settings by
    exact h p.edits p
  intro l
  induction l with
  | nil => intro q; rfl
  | cons hd tl ih => intro q; simpa [List.foldl_cons, setValue] using ih (q.setValue hd.1 hd.2)

theorem foldl_pySetattr_lookup (l : List (String × PyValue)) (s : PySettings) (k : String) :
    pyGetattr (l.foldl (fun r kv => pySetattr r kv.1 kv.2) s) k
      = (lastWrite l k).orElse fun _ => pyGetattr s k := by
  induction l generalizing s with
  | nil => rfl
  | cons hd tl ih =>
      obtain ⟨a, v⟩ := hd
      rw [List.foldl_cons, ih]
      simp only [lastWrite, pyGetattr, pySetattr, dictLookup_dictSet]
      cases hlw : lastWrite tl k with
      | none => by_cases hak : a = k <;> simp [Option.orElse, hak]
      | some w => simp [Option.orElse]

end SettingsModelProxy

/-- The fixed set of status codes of the demos' data. -/
def statusCodes : List String := ["rdy", "omt", "wip", "fin"]

/-- The concrete status tree used as the failing input of claim C2: one
top-level item named A with one child named x whose status code is wip. -/
def demoTree : StatusTree := [⟨"A", [⟨"x", "wip"⟩]⟩]

/-!
The claims.
-/

/-- C1: calling the set function of an editor pair obtained from
`SettingsModelProxy.editor` records the new value only in the proxy's
internal edits dictionary and leaves every attribute of the underlying
settings object unchanged; only a subsequent `SettingsModelProxy.sync`
writes, for each edited key, the last value set for that key through to the
underlying settings object. Here `ops` is any sequence of editor-set calls
performed on a freshly constructed proxy over the settings object `s`:
after the calls the settings object is untouched and the edits dict holds
exactly the last value set per key; after `sync`, each edited key reads back
its last set value from the settings object and every other attribute is
unchanged. -/
theorem proxy_edits_defer_until_sync (s : PySettings) (ops : List (String × PyValue))
    (k : String) :
    (SettingsModelProxy.applyEdits (SettingsModelProxy.mk0 s) ops).settings = s ∧
    dictLookup (SettingsModelProxy.applyEdits (SettingsModelProxy.mk0 s) ops).edits k
      = lastWrite ops k ∧
    pyGetattr (SettingsModelProxy.sync
        (SettingsModelProxy.applyEdits (SettingsModelProxy.mk0 s) ops)).settings k
      = ((lastWrite ops k).orElse fun _ => pyGetattr s k) := by
  have hsettings : (SettingsModelProxy.applyEdits (SettingsModelProxy.mk0 s) ops).settings = s :=
    SettingsModelProxy.applyEdits_settings _ ops
  have hedits : dictLookup (SettingsModelProxy.applyEdits (SettingsModelProxy.mk0 s) ops).edits k
      = lastWrite ops k := by
    rw [SettingsModelProxy.applyEdits_edits_lookup]
    simp [SettingsModelProxy.mk0, dictLookup, orElse_none_right]
  refine ⟨hsettings, hedits, ?_⟩
  rw [SettingsModelProxy.sync_settings, SettingsModelProxy.foldl_pySetattr_lookup, hsettings,
    lastWrite_eq_dictLookup_of_nodup _ k (SettingsModelProxy.applyEdits_edits_nodup s ops),
    hedits]

/-- C2 (evaluation at the failing input): selecting the child x of top-level
item A with status wip makes the model/view demo's `__getitem__` put the
child's own name in the record's first (parent) field and the top-level
item's name in the second (child) field, so the handler prints x:A (wip);
the item/widget demo builds the record the other way round and prints
A:x (wip). -/
theorem model_view_prints_child_before_parent :
    StatusModel.getitem demoTree (MIdx.child 0 0)
      = Option.some ⟨"x", "A", "wip"⟩ ∧
    StatusView.selectionChanged demoTree [MIdx.child 0 0] = Option.some "x:A (wip)" ∧
    StatusWidget.childItemAt demoTree 0 0 = Option.some ⟨"A", "x", "wip"⟩ ∧
    StatusWidget.handle_item_selection [⟨"A", "x", "wip"⟩]
      = Except.ok (Option.some "A:x (wip)") :=
  ⟨rfl, rfl, rfl, rfl⟩

/-- C3 (evaluation at the failing input): a `SettingsModel` instance does have
the settings attribute color, yet `SettingsModel.editor` raises
`AttributeError` on it — its assert dereferences `self._settings`, an
attribute the class never assigns — instead of returning the editor pair. -/
theorem settings_model_editor_raises_attribute_error :
    SettingsModel.hasattr "color" = true ∧
    SettingsModel.editor "color" = Except.error PyErr.attributeError :=
  ⟨by decide, rfl⟩

/-- C4: `ProxyModel.filterAcceptsRow` accepts a source row exactly when the
color filter is unset or matches the row item's color, and the base class's
string-filter predicate accepts the row. -/
theorem filter_accepts_row_iff (fv : Option String) (item : ProxyModel.SourceRow)
    (sup : Bool) :
    ProxyModel.filterAcceptsRow fv item sup = true ↔
      ((fv = Option.none ∨ fv = Option.some item.color) ∧ sup = true) := by
  cases fv with
  | none => simp [ProxyModel.filterAcceptsRow]
  | some v =>
      by_cases hv : v = item.color <;>
        simp [ProxyModel.filterAcceptsRow, hv]

/-- C5: for both windows that defer their initial refresh — `StatusWindow` of
`qmodelview/common.py` and `MainWindow` of `qmodelproxy/sort_filter_proxy.py`
— any sequence of `n` show events triggers the deferred refresh exactly once
when `n` is at least one (namely on the first event) and never again. -/
theorem deferred_refresh_fires_exactly_once (n : Nat) :
    (StatusWindow.showEvent^[n] StatusWindow.init).refreshes
      = (if n = 0 then 0 else 1) ∧
    (MainWindow.showEvent^[n] MainWindow.init).scheduledRefreshes
      = (if n = 0 then 0 else 1) := by
  constructor
  · cases n with
    | zero => rfl
    | succ m =>
        have h1 : StatusWindow.showEvent StatusWindow.init = ⟨true, 1⟩ := rfl
        have h2 : StatusWindow.showEvent ⟨true, 1⟩ = ⟨true, 1⟩ := rfl
        rw [Function.iterate_succ_apply, h1, Function.iterate_fixed h2 m]
        simp
  · cases n with
    | zero => rfl
    | succ m =>
        have h1 : MainWindow.showEvent MainWindow.init = ⟨true, 1⟩ := rfl
        have h2 : MainWindow.showEvent ⟨true, 1⟩ = ⟨true, 1⟩ := rfl
        rw [Function.iterate_succ_apply, h1, Function.iterate_fixed h2 m]
        simp

/-- C6: `SettingsModelProxy.value` returns `None` for every key and every
default, whatever the underlying settings object holds — its body evaluates
the attribute lookup but never returns it. -/
theorem proxy_value_always_none (p : SettingsModelProxy) (key : String) (d : PyValue) :
    p.value key d = PyValue.none := rfl

/-- C7: with nothing selected, the model/view demo's accessor falls back to
the invalid index and its handler prints nothing (the `IndexError` is
swallowed); the item/widget demo's accessor falls back to the sentinel
`None` and its handler returns without printing; neither raises. -/
theorem empty_selection_prints_nothing (tree : StatusTree) :
    StatusView.selected_index [] = MIdx.invalid ∧
    StatusView.selectionChanged tree [] = Option.none ∧
    StatusWidget.selectedItem [] = Except.ok Option.none ∧
    StatusWidget.handle_item_selection [] = Except.ok Option.none :=
  ⟨rfl, rfl, rfl, rfl⟩

/-- C8: the OK button of `PromptDialog` starts disabled, and after every
text-change event it is enabled exactly when the text field is non-empty. -/
theorem ok_button_enabled_iff_text_nonempty (ts : List String) (t : String) :
    PromptDialog.setup.okEnabled = false ∧
    ((PromptDialog.runTextEvents (ts ++ [t])).okEnabled = true ↔
      (PromptDialog.runTextEvents (ts ++ [t])).text ≠ "") := by
  refine ⟨rfl, ?_⟩
  simp only [PromptDialog.runTextEvents, List.foldl_append, List.foldl_cons, List.foldl_nil,
    PromptDialog.textChangedEvent, Bool.not_eq_true', Bool.not_eq_true, ne_eq]
  rw [Bool.eq_false_iff]
  exact not_congr (String.isEmpty_iff t)

/-- C9: every status code of the fixed set has a display name and a display
color, and building a child status row with such a code succeeds in both
demos — the `KeyError` branch of the `STATUS_COLORS` lookup is unreachable
under that precondition. -/
theorem status_tables_cover_status_codes (name s : String) (h : s ∈ statusCodes) :
    (dictLookup STATUS_NAMES s).isSome = true ∧
    (dictLookup STATUS_COLORS s).isSome = true ∧
    (∃ r, StatusModel.create_child_items name s = Except.ok r) ∧
    (∃ r, StatusWidget.create_child_item name s = Except.ok r) := by
  fin_cases h <;>
    exact ⟨rfl, rfl, ⟨_, rfl⟩, ⟨_, rfl⟩⟩

/-- Witness for C9 at the concrete code wip. -/
theorem status_tables_cover_status_codes_witness :
    (dictLookup STATUS_NAMES "wip").isSome = true ∧
    (dictLookup STATUS_COLORS "wip").isSome = true ∧
    (∃ r, StatusModel.create_child_items "step" "wip" = Except.ok r) ∧
    (∃ r, StatusWidget.create_child_item "step" "wip" = Except.ok r) :=
  status_tables_cover_status_codes "step" "wip" (by decide)

/-- C10 as stated is false at the concrete input row −1 (no previous
selection), count 3: the previous index −1 is strictly less than the item
count, yet the restored index is 0, not −1. -/
theorem set_root_index_row_claim_fails_at_minus_one :
    (-1 : Int) < 3 ∧ RootLeafWidget.set_root_index_row (-1) 3 = 0 ∧
    RootLeafWidget.set_root_index_row (-1) 3 ≠ -1 := by
  refine ⟨by decide, by decide, by decide⟩

/-- C10 amended: after `_set_root_index` with `restore_selection=True`, the
restored index equals the previous row exactly when that row is nonnegative
and strictly below the new item count, and is 0 in every other case; it is
never negative, and it is strictly below the item count whenever the combo
box is non-empty. -/
theorem set_root_index_row_spec (row count : Int) :
    ((0 ≤ row ∧ row < count) → RootLeafWidget.set_root_index_row row count = row) ∧
    (¬(0 ≤ row ∧ row < count) → RootLeafWidget.set_root_index_row row count = 0) ∧
    0 ≤ RootLeafWidget.set_root_index_row row count ∧
    (0 < count → RootLeafWidget.set_root_index_row row count < count) := by
  unfold RootLeafWidget.set_root_index_row
  by_cases h : row < count
  · rw [if_pos h, mul_one, max_def]
    split_ifs <;> omega
  · rw [if_neg h, mul_zero, max_def]
    split_ifs <;> omega

/-- Witness for C10 at concrete inputs: a previous row 2 of 5 items is
restored; a previous row 7 of 5 items falls back to 0. -/
theorem set_root_index_row_spec_witness :
    RootLeafWidget.set_root_index_row 2 5 = 2 ∧
    RootLeafWidget.set_root_index_row 7 5 = 0 :=
  ⟨(set_root_index_row_spec 2 5).1 (by decide),
   (set_root_index_row_spec 7 5).2.1 (by decide)⟩
